import Mathlib

/-!
Shallow embedding of `src/shared/components/common/totp-modal.tsx`.

JS strings are modelled as `List Char`; the component's mutable state
(`this.state.totp`, the focused input, and the externally observable calls to
the `onSubmit` callback and the `toast` service) is a record threaded through
the event handlers.  `setState` is modelled as an immediate functional update,
matching the code's own assumption (line 49 reads `modal.state` right after
`setState`).  The asynchronous tail of `handleSubmit` (after `await
modal.props.onSubmit(totp)`) is modelled separately as `handleSubmitResult`,
parameterised by the boolean the promise resolved to.

The validation checks `isNaN(event.target.value)` and `isNaN(Number(text))`
both coerce a string with the ECMAScript StringNumericLiteral grammar:
whitespace-trimmed empty string is 0; otherwise a hex/octal/binary literal,
or an optionally signed decimal literal / `Infinity`.  `isStrNumeric` below
implements that grammar (character codes are compared via `Char.toNat`).
-/

/-- ASCII decimal digit, codes 48..57 (characters `0`..`9`). -/
def isDecDigit (c : Char) : Bool := 48 ≤ c.toNat && c.toNat ≤ 57

/-- Hexadecimal digit: `0`..`9`, `a`..`f` (97..102), `A`..`F` (65..70). -/
def isHexDigit (c : Char) : Bool :=
  isDecDigit c || (97 ≤ c.toNat && c.toNat ≤ 102) || (65 ≤ c.toNat && c.toNat ≤ 70)

/-- Octal digit, codes 48..55 (characters `0`..`7`). -/
def isOctDigit (c : Char) : Bool := 48 ≤ c.toNat && c.toNat ≤ 55

/-- Binary digit, codes 48..49 (characters `0`..`1`). -/
def isBinDigit (c : Char) : Bool := 48 ≤ c.toNat && c.toNat ≤ 49

/-- ECMAScript StrWhiteSpaceChar (WhiteSpace or LineTerminator): TAB 9, LF 10,
VT 11, FF 12, CR 13, SP 32, NBSP 160, LS 0x2028, PS 0x2029, BOM 0xFEFF, and
the Unicode Space_Separator (Zs) code points OGHAM SPACE 0x1680, the
0x2000..0x200A range, NNBSP 0x202F, MMSP 0x205F and IDEOGRAPHIC SPACE
0x3000. -/
def isStrWhiteSpaceChar (c : Char) : Bool :=
  c.toNat = 9 || c.toNat = 10 || c.toNat = 11 || c.toNat = 12 || c.toNat = 13 ||
  c.toNat = 32 || c.toNat = 160 || c.toNat = 0x1680 ||
  (0x2000 ≤ c.toNat && c.toNat ≤ 0x200A) ||
  c.toNat = 0x2028 || c.toNat = 0x2029 || c.toNat = 0x202F || c.toNat = 0x205F ||
  c.toNat = 0x3000 || c.toNat = 0xFEFF

/-- `0x`/`0X`, `0o`/`0O`, `0b`/`0B` integer literals (at least one digit). -/
def isNonDecIntLiteral : List Char → Bool
  | c0 :: c1 :: rest =>
      c0.toNat == 48 &&
      (((c1.toNat == 120 || c1.toNat == 88) && !rest.isEmpty && rest.all isHexDigit) ||
       ((c1.toNat == 111 || c1.toNat == 79) && !rest.isEmpty && rest.all isOctDigit) ||
       ((c1.toNat == 98 || c1.toNat == 66) && !rest.isEmpty && rest.all isBinDigit))
  | _ => false

/-- The literal `Infinity` (codes of I n f i n i t y). -/
def isInfinityLit : List Char → Bool
  | [a, b, c, d, e, f, g, h] =>
      a.toNat == 73 && b.toNat == 110 && c.toNat == 102 && d.toNat == 105 &&
      e.toNat == 110 && f.toNat == 105 && g.toNat == 116 && h.toNat == 121
  | _ => false

/-- Exponent tail after `e`/`E`: optional sign (43 `+` / 45 `-`) then one or
more decimal digits, consuming the rest of the string. -/
def isExpRest : List Char → Bool
  | [] => false
  | c :: rest =>
      if c.toNat == 43 || c.toNat == 45 then !rest.isEmpty && rest.all isDecDigit
      else (c :: rest).all isDecDigit

/-- ExponentPart: `e` (101) or `E` (69) followed by a signed digit run. -/
def isExpPart : List Char → Bool
  | [] => false
  | c :: rest => (c.toNat == 101 || c.toNat == 69) && isExpRest rest

/-- Unsigned decimal literal: `digits`, `digits.`, `digits.digits`, `.digits`,
each with an optional ExponentPart. -/
def isDecLiteral (t : List Char) : Bool :=
  let intPart := t.takeWhile isDecDigit
  match t.drop intPart.length with
  | [] => !intPart.isEmpty
  | c :: rest2 =>
      if c.toNat == 46 then
        let fracPart := rest2.takeWhile isDecDigit
        let rest3 := rest2.drop fracPart.length
        (!intPart.isEmpty || !fracPart.isEmpty) && (rest3.isEmpty || isExpPart rest3)
      else !intPart.isEmpty && isExpPart (c :: rest2)

/-- Unsigned part of a StrDecimalLiteral: `Infinity` or a decimal literal. -/
def isUnsignedNumeric (t : List Char) : Bool :=
  isInfinityLit t || isDecLiteral t

/-- StrDecimalLiteral: optional sign (43 `+` / 45 `-`) then an unsigned part. -/
def isSignedNumeric : List Char → Bool
  | [] => false
  | c :: rest =>
      if c.toNat == 43 || c.toNat == 45 then isUnsignedNumeric rest
      else isUnsignedNumeric (c :: rest)

/-- `Number(s)` is a non-NaN number: trim StrWhiteSpace at both ends; the
empty remainder is 0; otherwise a non-decimal integer literal or a signed
decimal literal. -/
def isStrNumeric (s : List Char) : Bool :=
  let t := ((s.dropWhile isStrWhiteSpaceChar).reverse.dropWhile isStrWhiteSpaceChar).reverse
  t.isEmpty || isNonDecIntLiteral t || isSignedNumeric t

/-- `isNaN(s)` / `isNaN(Number(s))` for a string argument. -/
def jsToNumberIsNaN (s : List Char) : Bool := !isStrNumeric s

/-- `const TOTP_LENGTH = 6`. -/
def TOTP_LENGTH : Nat := 6

/-- Observable component state: `state.totp`, `state.qrCode`, which input (if
any) was last given focus via `inputRefs[j]?.focus()`, and the logs of
`props.onSubmit` invocations and `toast` calls. -/
structure TotpModal where
  totp : List Char
  qrCode : Option (List Char)
  focused : Option Nat
  submitCalls : List (List Char)
  toastCalls : List String
deriving DecidableEq, Repr

/-- Initial state: `state = { totp: "" }`, nothing focused, no calls yet. -/
def initState : TotpModal :=
  { totp := [], qrCode := none, focused := none, submitCalls := [], toastCalls := [] }

/-- The synchronous prefix of `handleSubmit`: `modal.props.onSubmit(totp)` is
invoked (recorded in the log); the rest awaits the promise. -/
def submitCall (m : TotpModal) (code : List Char) : TotpModal :=
  { m with submitCalls := m.submitCalls ++ [code] }

/-- The continuation of `handleSubmit` once `onSubmit` resolved to
`successful`: on `false`, `setState({ totp: "" })` and `inputRefs[0]?.focus()`;
on `true`, nothing. -/
def handleSubmitResult (m : TotpModal) (successful : Bool) : TotpModal :=
  if !successful then { m with totp := [], focused := some 0 } else m

/-- `handleInput` for cell `i` with `event.target.value = value`: if
`isNaN(value)`, `preventDefault` and return; else append `value` to the totp,
focus `inputRefs[i+1]` when it exists, and submit once the totp reaches
`TOTP_LENGTH`. -/
def handleInput (m : TotpModal) (i : Nat) (value : List Char) : TotpModal :=
  if jsToNumberIsNaN value = true then m
  else
    let m1 : TotpModal :=
      { m with totp := m.totp ++ value,
               focused := if i + 1 < TOTP_LENGTH then some (i + 1) else m.focused }
    if TOTP_LENGTH ≤ m1.totp.length then submitCall m1 m1.totp else m1

/-- `handleKeyUp` for cell `i`: on Backspace with `i > 0`, drop the last totp
character (`slice(0, length - 1)`) and focus `inputRefs[i-1]`. -/
def handleKeyUp (m : TotpModal) (i : Nat) (key : String) : TotpModal :=
  if key = "Backspace" ∧ 0 < i then
    { m with totp := m.totp.dropLast, focused := some (i - 1) }
  else m

/-- `handlePaste` with clipboard text `text`: reject (toast + clear) when the
text is longer than `TOTP_LENGTH` or `isNaN(Number(text))`; otherwise set the
totp to the text and submit it. -/
def handlePaste (m : TotpModal) (text : List Char) : TotpModal :=
  if TOTP_LENGTH < text.length ∨ jsToNumberIsNaN text = true then
    { m with toastCalls := m.toastCalls ++ ["Invalid TOTP: Must be string of six digits"],
             totp := [] }
  else
    submitCall { m with totp := text } text

/-- `clearTotp` (the `hidden.bs.modal` listener): `setState({ totp: "" })`. -/
def clearTotp (m : TotpModal) : TotpModal := { m with totp := [] }

/-- One rendered input cell: `value={totp[i] ?? ""}`,
`disabled={totp.length !== i}`. -/
structure CellView where
  index : Nat
  value : List Char
  disabled : Bool
deriving DecidableEq, Repr

/-- `disabled={totp.length !== i}` for cell `i`. -/
def cellDisabled (totp : List Char) (i : Nat) : Bool := totp.length != i

/-- The digit-entry grid of `render`: cells for `i` in
`Array.from(Array(TOTP_LENGTH).keys())`. -/
def renderCells (totp : List Char) : List CellView :=
  (List.range TOTP_LENGTH).map fun i =>
    { index := i,
      value := match totp.get? i with | some c => [c] | none => [],
      disabled := cellDisabled totp i }

/-- Truthiness of the optional boolean `show` prop (`!!`). -/
def truthy : Option Bool → Bool
  | none => false
  | some b => b

/-- Counts of imperative `this.modal.show()` / `this.modal.hide()` calls made
by one `componentDidUpdate`. -/
structure WidgetCalls where
  showCalls : Nat
  hideCalls : Nat
deriving DecidableEq, Repr

/-- `componentDidUpdate({ show: prevShow })`: when `!!prevShow !== !!show`,
call `show()` if the new prop is truthy, else `hide()`. -/
def componentDidUpdate (prevShow showNow : Option Bool) : WidgetCalls :=
  if truthy prevShow ≠ truthy showNow then
    if truthy showNow then ⟨1, 0⟩ else ⟨0, 1⟩
  else ⟨0, 0⟩

/-- The mode prop: `"login" | "remove" | "generate"`. -/
inductive ModalType
  | login
  | remove
  | generate
deriving DecidableEq, Repr

/-- `handleShow` (the `shown.bs.modal` listener): focus cell 0; in `generate`
mode compute the QR code from `this.props.secretUrl!`.  `getSVG` abstracts the
external QR library; the result is `none` exactly when the branch dereferences
an absent `secretUrl` through the non-null assertion. -/
def handleShow (getSVG : List Char → List Char) (ty : ModalType)
    (secretUrl : Option (List Char)) (m : TotpModal) : Option TotpModal :=
  let m1 : TotpModal := { m with focused := some 0 }
  match ty with
  | ModalType.generate =>
      match secretUrl with
      | some url => some { m1 with qrCode := some (getSVG url) }
      | none => none
  | _ => some m1

/-- Left-to-right typing: each keystroke is delivered by `handleInput` to the
currently enabled cell, which is cell `totp.length` (see `cellDisabled`). -/
def typeKeys (m : TotpModal) : List Char → TotpModal
  | [] => m
  | c :: cs => typeKeys (handleInput m m.totp.length [c]) cs

/-- The user-triggerable operations on a mounted modal.  A keystroke can only
reach `handleInput` through the unique enabled cell (all cells with
`totp.length !== i` are disabled), so typing is a no-op once no cell is
enabled; a key-up likewise fires on the enabled cell. -/
inductive Op
  | typed (c : Char)
  | backspace
  | paste (text : List Char)
  | submitResult (b : Bool)
  | hidden
deriving DecidableEq, Repr

/-- Apply one operation to the component state. -/
def applyOp (m : TotpModal) : Op → TotpModal
  | Op.typed c =>
      if m.totp.length < TOTP_LENGTH then handleInput m m.totp.length [c] else m
  | Op.backspace =>
      if m.totp.length < TOTP_LENGTH then handleKeyUp m m.totp.length "Backspace" else m
  | Op.paste text => handlePaste m text
  | Op.submitResult b => handleSubmitResult m b
  | Op.hidden => clearTotp m

/-! ### Helper lemmas -/

lemma ws_false_of_digit {c : Char} (h : isDecDigit c = true) :
    isStrWhiteSpaceChar c = false := by
  simp only [isDecDigit, Bool.and_eq_true, decide_eq_true_eq] at h
  simp only [isStrWhiteSpaceChar, Bool.or_eq_false_iff, Bool.and_eq_false_iff,
    decide_eq_false_iff_not, Nat.not_le]
  omega

lemma dropWhile_ws_of_digits {l : List Char} (h : l.all isDecDigit = true) :
    l.dropWhile isStrWhiteSpaceChar = l := by
  cases l with
  | nil => rfl
  | cons c t =>
      simp only [List.all_cons, Bool.and_eq_true] at h
      simp [List.dropWhile, ws_false_of_digit h.1]

lemma takeWhile_digits_of_all {l : List Char} (h : l.all isDecDigit = true) :
    l.takeWhile isDecDigit = l := by
  induction l with
  | nil => rfl
  | cons c t ih =>
      simp only [List.all_cons, Bool.and_eq_true] at h
      simp [List.takeWhile, h.1, ih h.2]

lemma isDecLiteral_of_digits {l : List Char} (h : l.all isDecDigit = true)
    (hne : l ≠ []) : isDecLiteral l = true := by
  unfold isDecLiteral
  rw [takeWhile_digits_of_all h]
  simp [List.drop_length, hne]

lemma all_digits_numeric {l : List Char} (h : l.all isDecDigit = true) :
    isStrNumeric l = true := by
  unfold isStrNumeric
  rw [dropWhile_ws_of_digits h]
  rw [dropWhile_ws_of_digits (by simpa using h)]
  rw [List.reverse_reverse]
  cases l with
  | nil => rfl
  | cons c t =>
      simp only [List.all_cons, Bool.and_eq_true] at h
      have hd := h.1
      simp only [isDecDigit, Bool.and_eq_true, decide_eq_true_eq] at hd
      have hne : ¬(c.toNat == 43 || c.toNat == 45) = true := by
        simp only [Bool.or_eq_true, beq_iff_eq]
        omega
      have hsig : isSignedNumeric (c :: t) = true := by
        simp only [isSignedNumeric]
        rw [if_neg hne]
        unfold isUnsignedNumeric
        have hdec : isDecLiteral (c :: t) = true :=
          isDecLiteral_of_digits (by simp [List.all_cons, h.1, h.2]) (by simp)
        simp [hdec]
      simp [hsig]

lemma jsNaN_digit {c : Char} (h : isDecDigit c = true) :
    jsToNumberIsNaN [c] = false := by
  simp [jsToNumberIsNaN, all_digits_numeric (l := [c]) (by simp [h])]

lemma jsNaN_digits {l : List Char} (h : l.all isDecDigit = true) :
    jsToNumberIsNaN l = false := by
  simp [jsToNumberIsNaN, all_digits_numeric h]

lemma submitCall_totp (m : TotpModal) (code : List Char) :
    (submitCall m code).totp = m.totp := rfl

lemma handleInput_totp_length (m : TotpModal) (i : Nat) (v : List Char) :
    (handleInput m i v).totp.length ≤ m.totp.length + v.length := by
  unfold handleInput
  split
  · exact Nat.le_add_right _ _
  · split <;> simp [submitCall] <;> split <;> simp

lemma applyOp_totp_length {m : TotpModal} (op : Op) (h : m.totp.length ≤ TOTP_LENGTH) :
    (applyOp m op).totp.length ≤ TOTP_LENGTH := by
  cases op with
  | typed c =>
      simp only [applyOp]
      split
      next hlt =>
        have hb := handleInput_totp_length m m.totp.length [c]
        simp only [List.length_cons, List.length_nil, TOTP_LENGTH] at hb hlt ⊢
        omega
      next => exact h
  | backspace =>
      simp only [applyOp]
      split
      next =>
        unfold handleKeyUp
        split
        · have hdl := List.length_dropLast m.totp
          simp only [TOTP_LENGTH] at h ⊢
          simp only [hdl]
          omega
        · exact h
      next => exact h
  | paste text =>
      simp only [applyOp]
      unfold handlePaste
      split
      next => simp
      next hne =>
        push_neg at hne
        simp only [submitCall_totp]
        exact hne.1
  | submitResult b =>
      cases b with
      | false => simp [applyOp, handleSubmitResult, TOTP_LENGTH]
      | true => simpa [applyOp, handleSubmitResult] using h
  | hidden =>
      simp [applyOp, clearTotp]

lemma foldl_applyOp_totp_length (ops : List Op) (m : TotpModal)
    (h : m.totp.length ≤ TOTP_LENGTH) :
    (ops.foldl applyOp m).totp.length ≤ TOTP_LENGTH := by
  induction ops generalizing m with
  | nil => exact h
  | cons op ops ih => exact ih _ (applyOp_totp_length op h)

lemma typeKeys_nil (m : TotpModal) : typeKeys m [] = m := rfl

lemma typeKeys_cons (m : TotpModal) (c : Char) (cs : List Char) :
    typeKeys m (c :: cs) = typeKeys (handleInput m m.totp.length [c]) cs := rfl

lemma handleInput_digit {m : TotpModal} {c : Char} (i : Nat) (h : isDecDigit c = true) :
    handleInput m i [c] =
      (if TOTP_LENGTH ≤ m.totp.length + 1 then
        submitCall
          { m with totp := m.totp ++ [c],
                   focused := if i + 1 < TOTP_LENGTH then some (i + 1) else m.focused }
          (m.totp ++ [c])
      else
        { m with totp := m.totp ++ [c],
                 focused := if i + 1 < TOTP_LENGTH then some (i + 1) else m.focused }) := by
  unfold handleInput
  rw [if_neg (by rw [jsNaN_digit h]; simp)]
  simp

lemma typeKeys_digits (ds : List Char) (m : TotpModal)
    (hdig : ds.all isDecDigit = true)
    (hsm : m.totp.length < TOTP_LENGTH)
    (hlen : m.totp.length + ds.length ≤ TOTP_LENGTH) :
    (typeKeys m ds).totp = m.totp ++ ds ∧
    (typeKeys m ds).submitCalls =
      m.submitCalls ++
        (if m.totp.length + ds.length = TOTP_LENGTH then [m.totp ++ ds] else []) := by
  induction ds generalizing m with
  | nil =>
      rw [typeKeys_nil]
      rw [if_neg (by simp only [List.length_nil, Nat.add_zero]; omega)]
      simp
  | cons c cs ih =>
      simp only [List.all_cons, Bool.and_eq_true] at hdig
      rw [typeKeys_cons, handleInput_digit m.totp.length hdig.1]
      by_cases hstep : TOTP_LENGTH ≤ m.totp.length + 1
      · have hcs : cs = [] := by
          cases cs with
          | nil => rfl
          | cons d t =>
              exfalso
              simp only [List.length_cons] at hlen
              omega
        subst hcs
        rw [if_pos hstep, typeKeys_nil]
        have heq : m.totp.length + List.length [c] = TOTP_LENGTH := by
          simp only [List.length_cons, List.length_nil] at hlen ⊢
          omega
        rw [if_pos heq]
        exact ⟨rfl, rfl⟩
      · rw [if_neg hstep]
        set R : TotpModal :=
          { m with totp := m.totp ++ [c],
                   focused := if m.totp.length + 1 < TOTP_LENGTH then some (m.totp.length + 1)
                              else m.focused } with hRdef
        have hRtotp : R.totp = m.totp ++ [c] := rfl
        have hRsub : R.submitCalls = m.submitCalls := rfl
        have hR1 : R.totp.length < TOTP_LENGTH := by
          rw [hRtotp]
          simp only [List.length_append, List.length_cons, List.length_nil]
          omega
        have hR2 : R.totp.length + cs.length ≤ TOTP_LENGTH := by
          rw [hRtotp]
          simp only [List.length_append, List.length_cons, List.length_nil]
          simp only [List.length_cons] at hlen
          omega
        obtain ⟨ih1, ih2⟩ := ih R hdig.2 hR1 hR2
        constructor
        · rw [ih1, hRtotp, List.append_assoc, List.singleton_append]
        · rw [ih2, hRsub, hRtotp]
          by_cases htot : m.totp.length + (c :: cs).length = TOTP_LENGTH
          · rw [if_pos htot, if_pos (by
              simp only [List.length_append, List.length_cons, List.length_nil]
              simp only [List.length_cons] at htot
              omega), List.append_assoc, List.singleton_append]
          · rw [if_neg htot, if_neg (by
              simp only [List.length_append, List.length_cons, List.length_nil]
              simp only [List.length_cons] at htot
              intro hx
              exact htot (by omega))]

/-! ### Claims -/

/-- C1: starting from the empty code, a sequence of 6 digit keystrokes
delivered left-to-right to the enabled cell invokes the `onSubmit` callback
exactly once, with the in-order concatenation of the 6 digits. -/
theorem typed_six_digits_submits_once (ds : List Char)
    (hlen : ds.length = 6) (hdig : ds.all isDecDigit = true) :
    (typeKeys initState ds).submitCalls = [ds] ∧ (typeKeys initState ds).totp = ds := by
  obtain ⟨h1, h2⟩ := typeKeys_digits ds initState hdig
    (by simp [initState, TOTP_LENGTH])
    (by simp [initState, hlen, TOTP_LENGTH])
  refine ⟨?_, ?_⟩
  · rw [h2]
    rw [if_pos (by simp [initState, hlen, TOTP_LENGTH])]
    simp [initState]
  · rw [h1]
    simp [initState]

/-- Witness for C1 at the keystroke sequence 1 2 3 4 5 6. -/
theorem typed_six_digits_submits_once_witness :
    (List.length ['1', '2', '3', '4', '5', '6'] = 6 ∧
      List.all ['1', '2', '3', '4', '5', '6'] isDecDigit = true) ∧
    (typeKeys initState ['1', '2', '3', '4', '5', '6']).submitCalls =
      [['1', '2', '3', '4', '5', '6']] ∧
    (typeKeys initState ['1', '2', '3', '4', '5', '6']).totp =
      ['1', '2', '3', '4', '5', '6'] :=
  ⟨⟨by decide, by decide⟩,
    typed_six_digits_submits_once ['1', '2', '3', '4', '5', '6'] (by decide) (by decide)⟩

/-- C2 counterexample: the pasted text `1e3` contains a character that is not
a decimal digit, yet the handler accepts it: no toast is shown, the totp is
set to it and `onSubmit` is invoked with it (because `Number("1e3")` is not
NaN). -/
theorem paste_nondigit_accepted_cex :
    List.all ['1', 'e', '3'] isDecDigit = false ∧
    (handlePaste initState ['1', 'e', '3']).toastCalls = [] ∧
    (handlePaste initState ['1', 'e', '3']).submitCalls = [['1', 'e', '3']] ∧
    (handlePaste initState ['1', 'e', '3']).totp = ['1', 'e', '3'] := by
  decide

/-- C2 (amended): a paste is rejected — toast
`Invalid TOTP: Must be string of six digits`, totp cleared, no `onSubmit`
call — exactly when the text is longer than 6 characters or its JS numeric
coercion is NaN (not: when it contains a non-digit character). -/
theorem paste_invalid_rejected (m : TotpModal) (text : List Char)
    (h : TOTP_LENGTH < text.length ∨ jsToNumberIsNaN text = true) :
    handlePaste m text =
      { m with toastCalls := m.toastCalls ++ ["Invalid TOTP: Must be string of six digits"],
               totp := [] } := by
  unfold handlePaste
  rw [if_pos h]

/-- Witness for the amended C2 at the pasted text `12a456`. -/
theorem paste_invalid_rejected_witness :
    (TOTP_LENGTH < List.length ['1', '2', 'a', '4', '5', '6'] ∨
      jsToNumberIsNaN ['1', '2', 'a', '4', '5', '6'] = true) ∧
    handlePaste initState ['1', '2', 'a', '4', '5', '6'] =
      { initState with
          toastCalls :=
            initState.toastCalls ++ ["Invalid TOTP: Must be string of six digits"],
          totp := [] } :=
  ⟨Or.inr (by decide),
    paste_invalid_rejected initState ['1', '2', 'a', '4', '5', '6'] (Or.inr (by decide))⟩

/-- C3: a pasted all-digit text of length at most 6 is accepted from any prior
state: the totp becomes exactly the text and `onSubmit` is invoked exactly
once with it (no re-validation of shorter texts). -/
theorem paste_valid_submits (m : TotpModal) (text : List Char)
    (hdig : text.all isDecDigit = true) (hlen : text.length ≤ TOTP_LENGTH) :
    handlePaste m text =
      { m with totp := text, submitCalls := m.submitCalls ++ [text] } := by
  unfold handlePaste
  rw [if_neg (by
    rintro (hlt | hnan)
    · exact absurd hlt (Nat.not_lt.mpr hlen)
    · rw [jsNaN_digits hdig] at hnan
      exact Bool.false_ne_true hnan)]
  rfl

/-- Witness for C3: pasting `123456` over the prior partial code `9`. -/
theorem paste_valid_submits_witness :
    (List.all ['1', '2', '3', '4', '5', '6'] isDecDigit = true ∧
      List.length ['1', '2', '3', '4', '5', '6'] ≤ TOTP_LENGTH) ∧
    handlePaste { initState with totp := ['9'] } ['1', '2', '3', '4', '5', '6'] =
      { { initState with totp := ['9'] } with
          totp := ['1', '2', '3', '4', '5', '6'],
          submitCalls :=
            { initState with totp := ['9'] }.submitCalls ++
              [['1', '2', '3', '4', '5', '6']] } :=
  ⟨⟨by decide, by decide⟩,
    paste_valid_submits { initState with totp := ['9'] } ['1', '2', '3', '4', '5', '6']
      (by decide) (by decide)⟩

/-- C4: when `onSubmit` resolves `false`, the totp is cleared and cell 0 is
focused and becomes the enabled cell; when it resolves `true`, the component
state is unchanged. -/
theorem submit_result_behavior (m : TotpModal) :
    handleSubmitResult m false = { m with totp := [], focused := some 0 } ∧
    cellDisabled (handleSubmitResult m false).totp 0 = false ∧
    handleSubmitResult m true = m :=
  ⟨rfl, rfl, rfl⟩

/-- C5 counterexample: a space keystroke is a non-digit, yet `handleInput`
appends it to the totp (because `isNaN(" ")` is false in JS). -/
theorem space_keystroke_appended_cex :
    isDecDigit ' ' = false ∧
    (handleInput initState 0 [' ']).totp = [' '] ∧
    (handleInput initState 0 [' ']).toastCalls = [] := by
  decide

/-- C5 (amended): a keystroke whose single-character string does not coerce to
a JS number — every non-digit except whitespace — leaves the state entirely
unchanged (no totp change, no toast). -/
theorem nonnumeric_keystroke_ignored (m : TotpModal) (i : Nat) (c : Char)
    (h : jsToNumberIsNaN [c] = true) :
    handleInput m i [c] = m := by
  unfold handleInput
  rw [if_pos h]

/-- Witness for the amended C5 at the keystroke `a`. -/
theorem nonnumeric_keystroke_ignored_witness :
    jsToNumberIsNaN ['a'] = true ∧ handleInput initState 0 ['a'] = initState :=
  ⟨by decide, nonnumeric_keystroke_ignored initState 0 'a' (by decide)⟩

/-- C6 counterexample: one paste operation from the initial state reaches a
totp containing the non-digit character `e`. -/
theorem totp_digit_invariant_cex :
    (([Op.paste ['1', 'e', '3']].foldl applyOp initState).totp = ['1', 'e', '3']) ∧
    isDecDigit 'e' = false := by
  decide

/-- C6 (amended): over every sequence of typed-input, backspace, paste,
submit-result and hidden-event operations, the totp length never exceeds 6;
the digits-only half of the claimed invariant fails (see the counterexample). -/
theorem totp_length_invariant (ops : List Op) :
    (ops.foldl applyOp initState).totp.length ≤ TOTP_LENGTH :=
  foldl_applyOp_totp_length ops initState (by decide)

/-- C7: the grid renders exactly 6 cells, and a rendered cell is enabled
(`disabled = false`) precisely when the totp length equals its index. -/
theorem render_cell_enabled_iff (totp : List Char) :
    (renderCells totp).length = TOTP_LENGTH ∧
    ∀ cell ∈ renderCells totp, (cell.disabled = false ↔ totp.length = cell.index) := by
  constructor
  · simp [renderCells]
  · intro cell hcell
    simp only [renderCells, List.mem_map, List.mem_range] at hcell
    obtain ⟨i, hi, rfl⟩ := hcell
    simp [cellDisabled]

/-- Witness for C7: with totp `1`, cell 1 is the enabled cell. -/
theorem render_cell_enabled_iff_witness :
    (CellView.mk 1 [] false).disabled = false ↔ List.length ['1'] = 1 :=
  (render_cell_enabled_iff ['1']).2 (CellView.mk 1 [] false) (by decide)

/-- C8: `componentDidUpdate` calls `show()` exactly once on a falsy-to-truthy
transition of the `show` prop, `hide()` exactly once on a truthy-to-falsy
transition, and neither when the truthiness is unchanged. -/
theorem show_prop_transition_calls (p q : Option Bool) :
    ((truthy p = false ∧ truthy q = true) → componentDidUpdate p q = ⟨1, 0⟩) ∧
    ((truthy p = true ∧ truthy q = false) → componentDidUpdate p q = ⟨0, 1⟩) ∧
    (truthy p = truthy q → componentDidUpdate p q = ⟨0, 0⟩) := by
  refine ⟨?_, ?_, ?_⟩
  · rintro ⟨h1, h2⟩
    simp [componentDidUpdate, h1, h2]
  · rintro ⟨h1, h2⟩
    simp [componentDidUpdate, h1, h2]
  · intro h
    simp [componentDidUpdate, h]

/-- Witness for C8: the prop going from absent to `true` calls `show()` once. -/
theorem show_prop_transition_calls_witness :
    componentDidUpdate none (some true) = ⟨1, 0⟩ :=
  (show_prop_transition_calls none (some true)).1 ⟨rfl, rfl⟩

/-- C9: pasting the empty string passes validation (`Number("")` is 0): the
totp is set to the empty string and `onSubmit` is invoked exactly once with
the empty string; no toast. -/
theorem paste_empty_accepted :
    (handlePaste initState []).totp = [] ∧
    (handlePaste initState []).submitCalls = [[]] ∧
    (handlePaste initState []).toastCalls = [] := by
  decide

/-- C10: in `generate` mode, `handleShow` dereferences `secretUrl!` with no
guard: the QR branch is well-defined exactly when `secretUrl` is provided. -/
theorem handleShow_generate_requires_secretUrl
    (getSVG : List Char → List Char) (secretUrl : Option (List Char)) (m : TotpModal) :
    (handleShow getSVG ModalType.generate secretUrl m).isSome ↔ secretUrl.isSome := by
  cases secretUrl <;> simp [handleShow]
